import Mathlib

/-!
Verification development for the wapiti injection-testing core:
shallow embedding of `wapitiCore/attack/attack.py` (Flags, PayloadReader,
Mutator, FileMutator) and `wapitiCore/attack/mod_buster.py` (ModuleBuster),
with theorems settling the specification claims.

Python strings are modelled as Lean `String`, Python `None`-able string
slots as `Option String`, Python sets as Lean lists used up to membership,
and file I/O / network I/O as explicit oracle arguments.
-/

namespace Wapiti

/-! ## String helpers modelling Python primitives -/

/-- Model of Python `str.replace(pat, rep)` on character lists:
leftmost, non-overlapping, all occurrences. An empty pattern leaves the
input unchanged (the source never calls replace with an empty pattern).
The second argument counts characters of a matched occurrence still to be
consumed, keeping the recursion structural on the list. -/
def replaceGo (pat rep : List Char) : List Char → Nat → List Char
  | [], _ => []
  | _ :: rest, skip + 1 => replaceGo pat rep rest skip
  | c :: rest, 0 =>
    if pat.isPrefixOf (c :: rest) ∧ pat ≠ [] then
      rep ++ replaceGo pat rep rest (pat.length - 1)
    else
      c :: replaceGo pat rep rest 0

/-- Model of Python `str.replace`. -/
def pyReplace (s pat rep : String) : String :=
  ⟨replaceGo pat.data rep.data s.data 0⟩

/-- Model of Python substring test `pat in s` (for non-empty `pat`). -/
def containsAux (pat : List Char) : List Char → Bool
  | [] => pat.isEmpty
  | c :: rest => pat.isPrefixOf (c :: rest) || containsAux pat rest

/-- Model of Python `pat in s`. -/
def pyContains (s pat : String) : Bool :=
  containsAux pat.data s.data

/-- Characters stripped by `line.strip(" \n")`. -/
def isStripChar (c : Char) : Bool := c = ' ' || c = '\n'

/-- Model of Python `s.strip(" \n")`. -/
def pyStrip (s : String) : String :=
  ⟨((s.data.dropWhile isStripChar).reverse.dropWhile isStripChar).reverse⟩

/-- Model of Python `s.rsplit(c, 1)[-1]`: the part after the last
occurrence of `c`, or all of `s` when `c` is absent. -/
def rsplitAfterLast (s : String) (c : Char) : String :=
  ⟨(s.data.reverse.takeWhile (fun x => x ≠ c)).reverse⟩

/-- Model of Python `s.rsplit(c, 1)[0]`: the part before the last
occurrence of `c`, or all of `s` when `c` is absent. -/
def rsplitBeforeLast (s : String) (c : Char) : String :=
  if s.data.contains c then
    ⟨((s.data.reverse.dropWhile (fun x => x ≠ c)).drop 1).reverse⟩
  else s

/-- Index of the last occurrence of `c` in `cs`. -/
def lastIdxOf (cs : List Char) (c : Char) : Option Nat :=
  match cs.reverse.findIdx? (fun x => x = c) with
  | none => none
  | some j => some (cs.length - 1 - j)

/-- Model of Python `os.path.splitext(p)[0]` (CPython `genericpath._splitext`
with separator `/`): cut at the last dot of the basename, unless every
character of the basename before that dot is itself a dot. -/
def splitextRoot (p : String) : String :=
  let cs := p.data
  let fileStart : Nat :=
    match lastIdxOf cs '/' with
    | none => 0
    | some s => s + 1
  match lastIdxOf cs '.' with
  | none => p
  | some d =>
    if fileStart ≤ d ∧ ((cs.drop fileStart).take (d - fileStart)).any (fun x => x ≠ '.') then
      ⟨cs.take d⟩
    else p

/-- UTF-8 bytes of one character. -/
def charUtf8 (c : Char) : List Nat :=
  let n := c.toNat
  if n < 0x80 then [n]
  else if n < 0x800 then [0xC0 + n / 0x40, 0x80 + n % 0x40]
  else if n < 0x10000 then
    [0xE0 + n / 0x1000, 0x80 + (n / 0x40) % 0x40, 0x80 + n % 0x40]
  else
    [0xF0 + n / 0x40000, 0x80 + (n / 0x1000) % 0x40, 0x80 + (n / 0x40) % 0x40, 0x80 + n % 0x40]

/-- UTF-8 bytes of a string (Python `s.encode("utf-8")`). -/
def strUtf8 (s : String) : List Nat :=
  s.data.flatMap charUtf8

/-- The lowercase hex digit of a nibble. -/
def hexDigitLower (n : Nat) : Char :=
  Char.ofNat (if n < 10 then 48 + n else 87 + n)

/-- The uppercase hex digit of a nibble. -/
def hexDigitUpper (n : Nat) : Char :=
  Char.ofNat (if n < 10 then 48 + n else 55 + n)

/-- Model of Python `binascii.hexlify(bs).decode()` (lowercase hex). -/
def hexlify (bs : List Nat) : String :=
  ⟨bs.flatMap (fun b => [hexDigitLower (b / 16 % 16), hexDigitLower (b % 16)])⟩

/-- Model of Python `urllib.parse.quote(s)` with the default `safe="/"`:
ASCII alphanumerics and `_.-~/` pass through, every other character is
percent-encoded byte-wise in uppercase hex. -/
def pyQuote (s : String) : String :=
  ⟨s.data.flatMap (fun c =>
    if c.isAlphanum || c = '_' || c = '.' || c = '-' || c = '~' || c = '/' then [c]
    else (charUtf8 c).flatMap
      (fun b => ['%', hexDigitUpper (b / 16 % 16), hexDigitUpper (b % 16)]))⟩

/-- Model of Python `path.endswith("/")`. -/
def endsWithSlash (s : String) : Bool :=
  s.data.getLast? = some '/'

/-- A single-quote character, kept out of string literals. -/
def sq : String := ⟨[Char.ofNat 39]⟩

/-- The NUL character as a string. -/
def nulStr : String := ⟨[Char.ofNat 0]⟩

/-! ## PayloadType and Flags (`attack.py` lines 92-182) -/

/-- Source `class PayloadType(Enum)`. -/
inductive PayloadType where
  | pattern
  | time
  | get
  | post
  | file
  | xss_closing_tag
  | xss_non_closing_tag
deriving DecidableEq, Repr

/-- Source `class Flags` (`attack.py` lines 130-182). `section` is a Lean keyword,
hence the field name `section_`. -/
structure Flags where
  payload_type : PayloadType := PayloadType.pattern
  section_ : String := ""
  method : PayloadType := PayloadType.get
  platform : String := "all"
  dbms : String := "all"
deriving DecidableEq, Repr

/-- Source `Flags.with_method` (`attack.py` lines 145-152). -/
def Flags.with_method (f : Flags) (method : PayloadType) : Flags :=
  { payload_type := f.payload_type, section_ := f.section_, method := method,
    platform := f.platform, dbms := f.dbms }

/-- Source `Flags.with_section` (`attack.py` lines 154-161). -/
def Flags.with_section (f : Flags) (section_ : String) : Flags :=
  { payload_type := f.payload_type, section_ := section_, method := f.method,
    platform := f.platform, dbms := f.dbms }

/-- A Python value handed to `Flags.__eq__`: either another `Flags`
instance or a value of any other type (summarised by a description). -/
inductive PyObject where
  | flags (f : Flags)
  | other (descr : String)
deriving DecidableEq, Repr

/-- Outcome of a Python `__eq__` call: a boolean, or a raised `ValueError`. -/
inductive EqResult where
  | ok (b : Bool)
  | error (msg : String)
deriving DecidableEq, Repr

/-- The message of the `ValueError` raised by `Flags.__eq__` (`attack.py`
line 174). -/
def flagsCompareErrorMsg : String :=
  "Can" ++ sq ++ "t compare a Flags object to another kind of object"

/-- Source `Flags.__eq__` (`attack.py` lines 172-182): field-wise equality against
another `Flags`, a raised `ValueError` against anything else. -/
def Flags.eq (self : Flags) (other : PyObject) : EqResult :=
  match other with
  | PyObject.flags o =>
    EqResult.ok (decide (self.payload_type = o.payload_type ∧
      self.section_ = o.section_ ∧ self.method = o.method ∧
      self.platform = o.platform ∧ self.dbms = o.dbms))
  | PyObject.other _ => EqResult.error flagsCompareErrorMsg

/-! ## PayloadReader (`attack.py` lines 577-612) -/

/-- Source `class PayloadReader`: `_timeout` comes from `options["timeout"]`
(a Python float, modelled as a rational), `_endpoint_url` from
`options.get("external_endpoint", ...)`. -/
structure PayloadReader where
  timeout : ℚ
  endpoint_url : String

/-- The first five substitutions of `PayloadReader.process_line`
(`attack.py` lines 599-604), applied to the stripped line, in source
order: `[TAB]`, `[LF]`, `[FF]`, `[TIME]`, `[EXTERNAL_ENDPOINT]`. -/
def PayloadReader.substituted (r : PayloadReader) (line : String) : String :=
  let clean := pyStrip line
  let clean := pyReplace clean "[TAB]" "\t"
  let clean := pyReplace clean "[LF]" "\n"
  let clean := pyReplace clean "[FF]" "\x0c"
  let clean := pyReplace clean "[TIME]" (toString (Int.ceil r.timeout + 1))
  pyReplace clean "[EXTERNAL_ENDPOINT]" r.endpoint_url

/-- Source `PayloadReader.process_line` (`attack.py` lines 597-612). -/
def PayloadReader.process_line (r : PayloadReader) (line : String) : String × Flags :=
  let clean := r.substituted line
  let step :=
    if pyContains clean "[TIMEOUT]" then
      (pyReplace clean "[TIMEOUT]" "", PayloadType.time)
    else (clean, PayloadType.pattern)
  (pyReplace step.1 "\\0" nulStr, { payload_type := step.2 })

/-- Source `PayloadReader.read_payloads` (`attack.py` lines 584-595). The file
system is modelled as `Option (List String)`: `none` is an `IOError` on
open (the exception is printed and swallowed, an empty list is returned),
`some ls` is the list of lines of the file. Lines whose processed payload
is empty are dropped. -/
def PayloadReader.read_payloads (r : PayloadReader) (file : Option (List String)) :
    List (String × Flags) :=
  match file with
  | none => []
  | some ls =>
    ls.filterMap (fun line =>
      let cf := r.process_line line
      if cf.1 = "" then none else some cf)

/-! ## Request model

`wapitiCore.net.web.Request` is an external collaborator (its module is not
part of the sources under verification); the spec describes it as: method,
path, three ordered parameter collections, referer, link depth, optional
numeric path identifier, optional associated file name. -/

/-- A query or body parameter: name and value, where the value may be the
Python `None` (`attack.py` checks `if saved_value is None`). -/
abbrev StrParam := String × Option String

/-- A file-upload parameter: name and a Python sequence value, normally
`(filename, content, content_type)`; modelled as a list of strings so the
transient two-element sentinel shape `["__PAYLOAD__", content]` written by
`Mutator.mutate` is representable. -/
abbrev FileParam := String × List String

/-- Modelled from the spec: the external `Request` data (method, path,
query/body/file-upload parameter collections, referer, link depth,
optional numeric path id, optional associated file name; an absent file
name is the empty string, matching the falsiness test
`not request.file_name`). -/
structure Request where
  path : String
  method : String := "GET"
  get_params : List StrParam := []
  post_params : List StrParam := []
  file_params : List FileParam := []
  referer : String := ""
  link_depth : Nat := 0
  path_id : Option Int := none
  file_name : String := ""
deriving DecidableEq, Repr

/-- Modelled from the spec: the structural pattern identity of a request
(`hash(Request)`, external code; the `Request` class is an out-of-scope
collaborator). Per the spec, two requests are pattern-equal exactly when
their method and their parameter names match: the pattern hash is
"based on method and parameter names, ignoring values", so neither the
parameter values (the probed slot's value is masked by the `__PAYLOAD__`
sentinel anyway) nor the path distinguish patterns. -/
structure PatternKey where
  method : String
  get_names : List String
  post_names : List String
  file_names : List String
deriving DecidableEq, Repr

/-- Modelled from the spec: `hash(r)` for a `Request` — the method and the
names of the three parameter collections. -/
def requestHash (r : Request) : PatternKey :=
  { method := r.method,
    get_names := r.get_params.map Prod.fst,
    post_names := r.post_params.map Prod.fst,
    file_names := r.file_params.map Prod.fst }

/-! ## Mutator (`attack.py` lines 330-505) -/

/-- Source `COMMON_ANNOYING_PARAMETERS` (`attack.py` lines 102-114). -/
def COMMON_ANNOYING_PARAMETERS : List String :=
  ["__VIEWSTATE", "__VIEWSTATEENCRYPTED", "__VIEWSTATEGENERATOR",
   "__EVENTARGUMENT", "__EVENTTARGET", "__EVENTVALIDATION",
   "ASPSESSIONID", "ASP.NET_SESSIONID", "JSESSIONID", "CFID", "CFTOKEN"]

/-- One yielded tuple of `mutate()`:
(mutated request, parameter name, rendered payload, flags). -/
abbrev Candidate := Request × String × String × Flags

/-- The `Mutator` instance state (`attack.py` lines 331-346). The payload
source is modelled as the finite sequence of (payload, flags) pairs that
`iter_payloads` (lines 348-359) denotes. The `_attacks_per_url_pattern`
counter of the source is initialised and never read nor written anywhere,
and is omitted. Python sets are modelled as lists used up to membership. -/
structure Mutator where
  mutate_get : Bool
  mutate_file : Bool
  mutate_post : Bool
  payloads : List (String × Flags)
  qs_inject : Bool
  max_queries_per_pattern : Nat
  parameters : List String
  skip_list : List String
  attack_hashes : List PatternKey
deriving DecidableEq, Repr

/-- Whether `c` occurs in `methods.upper()` (Python `"G" in methods.upper()`). -/
def methodsHave (methods : String) (c : Char) : Bool :=
  methods.data.any (fun x => x.toUpper = c)

/-- Source `Mutator.__init__` (`attack.py` lines 331-346): `skip_list` is the
given blocklist unioned with `COMMON_ANNOYING_PARAMETERS`; the attack-hash
set starts empty. -/
def Mutator.init (methods : String := "FGP") (payloads : List (String × Flags) := [])
    (qs_inject : Bool := false) (max_queries_per_pattern : Nat := 1000)
    (parameters : List String := []) (skip : List String := []) : Mutator :=
  { mutate_get := methodsHave methods 'G',
    mutate_file := methodsHave methods 'F',
    mutate_post := methodsHave methods 'P',
    payloads := payloads,
    qs_inject := qs_inject,
    max_queries_per_pattern := max_queries_per_pattern,
    parameters := parameters,
    skip_list := skip ++ COMMON_ANNOYING_PARAMETERS,
    attack_hashes := [] }

/-- Which of the two string-parameter collections is being iterated
(the file collection has its own processing function). -/
inductive Slot where
  | get
  | post
deriving DecidableEq, Repr

/-- The mutable state threaded through one `mutate()` pass: the three
parameter lists of the input request (mutated in place by the Python
generator) and the instance hash set. -/
structure MutState where
  gp : List StrParam
  pp : List StrParam
  fp : List FileParam
  hashes : List PatternKey
deriving DecidableEq, Repr

def MutState.strList (st : MutState) : Slot → List StrParam
  | Slot.get => st.gp
  | Slot.post => st.pp

def MutState.setStrList (st : MutState) : Slot → List StrParam → MutState
  | Slot.get, l => { st with gp := l }
  | Slot.post, l => { st with pp := l }

/-- The pattern hash computed at `attack.py` lines 395-401 for a string
parameter: the request rebuilt with the current three lists, the value at
position `i` replaced by the `"__PAYLOAD__"` sentinel. -/
def strPatternKey (req : Request) (slot : Slot) (st : MutState) (i : Nat)
    (pname : String) : PatternKey :=
  let stSent := st.setStrList slot ((st.strList slot).set i (pname, some "__PAYLOAD__"))
  let attack_pattern : Request :=
    { path := req.path, method := req.method,
      get_params := stSent.gp, post_params := stSent.pp, file_params := stSent.fp }
  requestHash attack_pattern

/-- The pattern hash for a file parameter: the sentinel shape is
`["__PAYLOAD__", value[1]]` (`attack.py` line 391). -/
def filePatternKey (req : Request) (st : MutState) (i : Nat)
    (pname : String) (fval : List String) : PatternKey :=
  let attack_pattern : Request :=
    { path := req.path, method := req.method,
      get_params := st.gp, post_params := st.pp,
      file_params := st.fp.set i (pname, ["__PAYLOAD__", fval.getD 1 ""]) }
  requestHash attack_pattern

/-- The context-free placeholder renderings shared by every slot
(`attack.py` lines 408-421): skip when `[FILE_NAME]`/`[FILE_NOEXT]` is
referenced without a file-name context, then substitute `[FILE_NAME]`,
`[FILE_NOEXT]`, `[PATH_ID]` (only when the path id is an int) and
`[PARAM_AS_HEX]`. -/
def renderCommon (req : Request) (param_name : String) (payload : String) :
    Option String :=
  if (pyContains payload "[FILE_NAME]" || pyContains payload "[FILE_NOEXT]")
      ∧ req.file_name = "" then
    none
  else
    let p := pyReplace payload "[FILE_NAME]" req.file_name
    let p := pyReplace p "[FILE_NOEXT]" (splitextRoot req.file_name)
    let p :=
      match req.path_id with
      | some n => pyReplace p "[PATH_ID]" (toString n)
      | none => p
    some (pyReplace p "[PARAM_AS_HEX]" (hexlify (strUtf8 param_name)))

/-- The value-dependent placeholder renderings (`attack.py` lines 423-443):
`[EXTVALUE]` requires a dot in `saved[:-1]` (otherwise the payload is
skipped), then `[VALUE]` and `[DIRVALUE]` are substituted from the saved
original value. For file parameters `saved` is the original filename
(`saved_value[0]`). -/
def renderValue (saved : String) (p : String) : Option String :=
  let finish := fun (q : String) =>
    pyReplace (pyReplace q "[VALUE]" saved) "[DIRVALUE]" (rsplitBeforeLast saved '/')
  if pyContains p "[EXTVALUE]" then
    if pyContains ⟨saved.data.dropLast⟩ "." then
      some (finish (pyReplace p "[EXTVALUE]" (rsplitAfterLast saved '.')))
    else none
  else some (finish p)

/-- Processing of the string parameter at position `i` of the `slot` list
(`attack.py` lines 377-463): skip on blocklist/allowlist, compute the
sentinel pattern hash, suppress the whole parameter when the hash was
already recorded, otherwise record it and emit one candidate per
applicable payload; in every non-skipped case the final assignment
`params_list[i][1] = saved_value` restores the saved value (the Python
`None` having been replaced by `""`). -/
def processStrParam (pays : List (String × Flags)) (parameters skip_list : List String)
    (req : Request) (slot : Slot) (st : MutState) (i : Nat) :
    MutState × List Candidate :=
  let ps := st.strList slot
  match ps.get? i with
  | none => (st, [])
  | some (pname, pval) =>
    let param_name := pyQuote pname
    if skip_list ≠ [] ∧ param_name ∈ skip_list then (st, [])
    else if parameters ≠ [] ∧ param_name ∉ parameters then (st, [])
    else
      let saved := pval.getD ""
      let key := strPatternKey req slot st i pname
      let restored := st.setStrList slot (ps.set i (pname, some saved))
      if key ∈ st.hashes then (restored, [])
      else
        let cands := pays.filterMap (fun pf =>
          (renderCommon req param_name pf.1).bind (fun p1 =>
            (renderValue saved p1).map (fun p2 =>
              let stP := st.setStrList slot (ps.set i (pname, some p2))
              let evil : Request :=
                { path := req.path, method := req.method,
                  get_params := stP.gp, post_params := stP.pp, file_params := stP.fp,
                  referer := req.referer, link_depth := req.link_depth }
              (evil, param_name, p2,
                pf.2.with_method
                  (match slot with
                   | Slot.get => PayloadType.get
                   | Slot.post => PayloadType.post)))))
        ({ restored with hashes := key :: st.hashes }, cands)

/-- Processing of the file parameter at position `i` (`attack.py` lines
377-463, `params_list is file_params` branch): same skip and dedup logic;
a candidate installs `(payload, saved[1], saved[2])`; the final assignment
restores the saved value unchanged. -/
def processFileParam (pays : List (String × Flags)) (parameters skip_list : List String)
    (req : Request) (st : MutState) (i : Nat) : MutState × List Candidate :=
  match st.fp.get? i with
  | none => (st, [])
  | some (pname, fval) =>
    let param_name := pyQuote pname
    if skip_list ≠ [] ∧ param_name ∈ skip_list then (st, [])
    else if parameters ≠ [] ∧ param_name ∉ parameters then (st, [])
    else
      let key := filePatternKey req st i pname fval
      let restored := { st with fp := st.fp.set i (pname, fval) }
      if key ∈ st.hashes then (restored, [])
      else
        let fname0 := fval.getD 0 ""
        let cands := pays.filterMap (fun pf =>
          (renderCommon req param_name pf.1).bind (fun p1 =>
            (renderValue fname0 p1).map (fun p2 =>
              let fpP := st.fp.set i (pname, [p2, fval.getD 1 "", fval.getD 2 ""])
              let evil : Request :=
                { path := req.path, method := req.method,
                  get_params := st.gp, post_params := st.pp, file_params := fpP,
                  referer := req.referer, link_depth := req.link_depth }
              (evil, param_name, p2, pf.2.with_method PayloadType.file))))
        ({ restored with hashes := key :: st.hashes }, cands)

/-- Iteration of `processStrParam` over the given parameter positions. -/
def strPassGo (pays : List (String × Flags)) (parameters skip_list : List String)
    (req : Request) (slot : Slot) : List Nat → MutState → MutState × List Candidate
  | [], st => (st, [])
  | i :: rest, st =>
    let r1 := processStrParam pays parameters skip_list req slot st i
    let r2 := strPassGo pays parameters skip_list req slot rest r1.1
    (r2.1, r1.2 ++ r2.2)

/-- One full pass over a string-parameter list (`for i, __ in
enumerate(params_list)`; positions do not change during the pass). -/
def strPass (pays : List (String × Flags)) (parameters skip_list : List String)
    (req : Request) (slot : Slot) (st : MutState) : MutState × List Candidate :=
  strPassGo pays parameters skip_list req slot
    (List.range (st.strList slot).length) st

/-- Iteration of `processFileParam` over the given positions. -/
def filePassGo (pays : List (String × Flags)) (parameters skip_list : List String)
    (req : Request) : List Nat → MutState → MutState × List Candidate
  | [], st => (st, [])
  | i :: rest, st =>
    let r1 := processFileParam pays parameters skip_list req st i
    let r2 := filePassGo pays parameters skip_list req rest r1.1
    (r2.1, r1.2 ++ r2.2)

/-- One full pass over the file-parameter list. -/
def filePass (pays : List (String × Flags)) (parameters skip_list : List String)
    (req : Request) (st : MutState) : MutState × List Candidate :=
  filePassGo pays parameters skip_list req (List.range st.fp.length) st

/-- The pattern hash of the synthesized query-string pattern
`Request(f"{request.path}?__PAYLOAD__", ...)` (`attack.py` lines 466-471). -/
def qsPatternKey (req : Request) : PatternKey :=
  let attack_pattern : Request :=
    { path := req.path ++ "?__PAYLOAD__", method := req.method,
      referer := req.referer, link_depth := req.link_depth }
  requestHash attack_pattern

/-- Rendering of one payload in the query-string-only branch (`attack.py`
lines 476-505): payloads referencing `[VALUE]` or `[DIRVALUE]` are skipped,
the file-name context rule applies, `[PARAM_AS_HEX]` renders the hex of
`QUERY_STRING`, and the candidate's URL is `path?quote(payload)`. -/
def qsRenderOne (req : Request) (pl : String) (fl : Flags) : Option Candidate :=
  if pyContains pl "[VALUE]" then none
  else if pyContains pl "[DIRVALUE]" then none
  else if (pyContains pl "[FILE_NAME]" || pyContains pl "[FILE_NOEXT]")
      ∧ req.file_name = "" then none
  else
    let p := pyReplace pl "[FILE_NAME]" req.file_name
    let p := pyReplace p "[FILE_NOEXT]" (splitextRoot req.file_name)
    let p :=
      match req.path_id with
      | some n => pyReplace p "[PATH_ID]" (toString n)
      | none => p
    let p := pyReplace p "[PARAM_AS_HEX]" (hexlify (strUtf8 "QUERY_STRING"))
    let evil : Request :=
      { path := req.path ++ "?" ++ pyQuote p, method := req.method,
        referer := req.referer, link_depth := req.link_depth }
    some (evil, "QUERY_STRING", p, fl.with_method PayloadType.get)

/-- The query-string-only branch (`attack.py` lines 465-505): fires when
the (restored) query-parameter list is empty, the method is `GET` and
query-string injection is enabled; the synthesized pattern is deduplicated
through the same hash set. -/
def qsBranch (pays : List (String × Flags)) (qs_inject : Bool) (req : Request)
    (st : MutState) : MutState × List Candidate :=
  if st.gp.isEmpty ∧ req.method = "GET" ∧ qs_inject = true then
    let key := qsPatternKey req
    if key ∈ st.hashes then (st, [])
    else ({ st with hashes := key :: st.hashes },
      pays.filterMap (fun pf => qsRenderOne req pf.1 pf.2))
  else (st, [])

/-- One iteration of the `for params_list in [get_params, post_params,
file_params]` loop for a string slot: skipped entirely when the slot's
method is not enabled (`attack.py` lines 367-375). -/
def stageStr (enabled : Bool) (pays : List (String × Flags))
    (parameters skip_list : List String) (req : Request) (slot : Slot)
    (st : MutState) : MutState × List Candidate :=
  if enabled then strPass pays parameters skip_list req slot st else (st, [])

/-- The file-slot iteration of the same loop. -/
def stageFile (enabled : Bool) (pays : List (String × Flags))
    (parameters skip_list : List String) (req : Request)
    (st : MutState) : MutState × List Candidate :=
  if enabled then filePass pays parameters skip_list req st else (st, [])

/-- Source `Mutator.mutate` (`attack.py` lines 361-505), with the generator fully
consumed: returns the yielded candidates in order, the request as left
after the pass (its three parameter collections as mutated in place), and
the instance's attack-hash set after the pass. -/
def mutateCore (mg mf mp : Bool) (pays : List (String × Flags)) (qsi : Bool)
    (parameters skip_list : List String) (hashes0 : List PatternKey)
    (req : Request) : List Candidate × Request × List PatternKey :=
  let st0 : MutState := ⟨req.get_params, req.post_params, req.file_params, hashes0⟩
  let r1 := stageStr mg pays parameters skip_list req Slot.get st0
  let r2 := stageStr mp pays parameters skip_list req Slot.post r1.1
  let r3 := stageFile mf pays parameters skip_list req r2.1
  let r4 := qsBranch pays qsi req r3.1
  (r1.2 ++ r2.2 ++ r3.2 ++ r4.2,
   { req with get_params := r4.1.gp, post_params := r4.1.pp, file_params := r4.1.fp },
   r4.1.hashes)

/-- Source `Mutator.mutate` on an instance. -/
def Mutator.mutate (mu : Mutator) (req : Request) :
    List Candidate × Request × List PatternKey :=
  mutateCore mu.mutate_get mu.mutate_file mu.mutate_post mu.payloads mu.qs_inject
    mu.parameters mu.skip_list mu.attack_hashes req

/-! ## FileMutator (`attack.py` lines 508-574) -/

/-- The `FileMutator` instance state (`attack.py` lines 509-513); its
`_attack_hashes` set is created and never used by its `mutate`. -/
structure FileMutator where
  payloads : List (String × Flags)
  attack_hashes : List PatternKey
  parameters : List String
  skip_list : List String
deriving DecidableEq, Repr

/-- Source `FileMutator.__init__` (`attack.py` lines 509-513): no noise-parameter
union here. -/
def FileMutator.init (payloads : List (String × Flags) := [])
    (parameters : List String := []) (skip : List String := []) : FileMutator :=
  { payloads := payloads, attack_hashes := [], parameters := parameters,
    skip_list := skip }

/-- Processing of the file parameter at position `i` by
`FileMutator.mutate` (`attack.py` lines 533-574): the parameter name is
not URL-quoted, there is no dedup hashing, each applicable payload
installs `("content.xml", payload, "text/xml")`, and no restoration is
performed after the payload loop. -/
def fmProcess (pays : List (String × Flags)) (parameters skip_list : List String)
    (req : Request) (fp : List FileParam) (i : Nat) :
    List FileParam × List Candidate :=
  match fp.get? i with
  | none => (fp, [])
  | some (pname, _) =>
    if skip_list ≠ [] ∧ pname ∈ skip_list then (fp, [])
    else if parameters ≠ [] ∧ pname ∉ parameters then (fp, [])
    else
      pays.foldl (fun acc pf =>
        match renderCommon req pname pf.1 with
        | none => acc
        | some p =>
          let fp1 := acc.1.set i (pname, ["content.xml", p, "text/xml"])
          let evil : Request :=
            { path := req.path, method := req.method,
              get_params := req.get_params, post_params := req.post_params,
              file_params := fp1, referer := req.referer,
              link_depth := req.link_depth }
          (fp1, acc.2 ++ [(evil, pname, p, pf.2.with_method PayloadType.file)]))
        (fp, [])

/-- Iteration of `fmProcess` over the given positions. -/
def fmGo (pays : List (String × Flags)) (parameters skip_list : List String)
    (req : Request) : List Nat → List FileParam → List FileParam × List Candidate
  | [], fp => (fp, [])
  | i :: rest, fp =>
    let r1 := fmProcess pays parameters skip_list req fp i
    let r2 := fmGo pays parameters skip_list req rest r1.1
    (r2.1, r1.2 ++ r2.2)

/-- Source `FileMutator.mutate` (`attack.py` lines 528-574), fully consumed:
returns the candidates and the request as left after the pass. -/
def FileMutator.mutate (fm : FileMutator) (req : Request) :
    List Candidate × Request :=
  let r := fmGo fm.payloads fm.parameters fm.skip_list req
    (List.range req.file_params.length) req.file_params
  (r.2, { req with file_params := r.1 })

/-! ## ModuleBuster (`mod_buster.py`) -/

/-- Modelled from the spec: the response object returned by the network
collaborator (`crawler.async_send`): status code, optional redirection
target (absent is the empty string, matching the truthiness test
`if response.redirection_url`), and the URL the response belongs to. -/
structure NetResponse where
  url : String
  status : Nat
  redirection_url : String := ""
deriving DecidableEq, Repr

/-- Modelled from the spec: the collaborator's "is a directory-style
redirect" flag — the redirection target is the requested URL plus an
appended trailing slash. -/
def NetResponse.is_directory_redirection (r : NetResponse) : Bool :=
  r.redirection_url ≠ "" && r.redirection_url = r.url ++ "/"

/-- The network oracle: `none` models a raised `httpx.RequestError`. -/
abbrev Net := String → Option NetResponse

/-- The `ModuleBuster` instance state (`mod_buster.py` lines 41-46, plus
the `finished` flag of the `Attack` base class). -/
structure BusterState where
  known_dirs : List String := []
  known_pages : List String := []
  new_resources : List String := []
  network_errors : Nat := 0
  finished : Bool := false
deriving DecidableEq, Repr

/-- Source `ModuleBuster.check_path` (`mod_buster.py` lines 48-71): probe one
URL; a transport error counts a network error; a (truthy) redirect
enqueues the redirect target when it is a directory-style redirect and
the probed path otherwise; a non-redirect response enqueues the probed
path exactly when its status is outside {403, 404, 429}. (`Request(url)`
for the plain candidate URLs used here has `path = url`.) -/
def check_path (net : Net) (st : BusterState) (url : String) :
    BusterState × Bool :=
  match net url with
  | none => ({ st with network_errors := st.network_errors + 1 }, false)
  | some response =>
    if response.redirection_url ≠ "" then
      if response.is_directory_redirection then
        ({ st with new_resources := st.new_resources ++ [response.redirection_url] }, true)
      else
        ({ st with new_resources := st.new_resources ++ [url] }, true)
    else if response.status ∈ ([403, 404, 429] : List Nat) then (st, false)
    else ({ st with new_resources := st.new_resources ++ [url] }, true)

/-- Source `ModuleBuster.test_directory` (`mod_buster.py` lines 73-122), with the
bounded-concurrency probing loop sequentialised: concurrency only affects
scheduling, so one probe is admitted and completed per eligible candidate,
in payload order; the cooperative stop signal is modelled as a constant.
Returns the updated state and the trace of URLs actually sent. -/
def test_directory (stop : Bool) (net : Net) (pays : List (String × Flags))
    (st : BusterState) (path : String) : BusterState × List String :=
  match net (path ++ "does_n0t_exist.htm") with
  | none =>
    ({ st with network_errors := st.network_errors + 1 },
     [path ++ "does_n0t_exist.htm"])
  | some response =>
    if response.status ∈ ([403, 404] : List Nat) then
      if stop then (st, [path ++ "does_n0t_exist.htm"])
      else
        pays.foldl (fun (acc : BusterState × List String) pf =>
          let url := path ++ pf.1
          if url ∉ acc.1.known_dirs ∧ url ∉ acc.1.known_pages
              ∧ url ∉ acc.1.new_resources then
            ((check_path net acc.1 url).1, acc.2 ++ [url])
          else acc)
          (st, [path ++ "does_n0t_exist.htm"])
    else (st, [path ++ "does_n0t_exist.htm"])

/-- The seeding step of `ModuleBuster.attack` (`mod_buster.py` lines
130-137): partition one crawled path into `known_dirs` or `known_pages`
by the trailing-slash convention, without duplicates. -/
def seedResource (st : BusterState) (path : String) : BusterState :=
  if endsWithSlash path then
    if path ∈ st.known_dirs then st
    else { st with known_dirs := st.known_dirs ++ [path] }
  else
    if path ∈ st.known_pages then st
    else { st with known_pages := st.known_pages ++ [path] }

/-- The worklist-drain loop of `ModuleBuster.attack` (`mod_buster.py`
lines 146-153), with explicit fuel: pop the first new resource; a
directory-shaped one is appended to `known_dirs` and explored, any other
is appended to `known_pages`. -/
def drainLoop (stop : Bool) (net : Net) (pays : List (String × Flags)) :
    Nat → BusterState → BusterState
  | 0, st => st
  | fuel + 1, st =>
    match st.new_resources with
    | [] => st
    | r :: rest =>
      if stop then st
      else
        let st1 := { st with new_resources := rest }
        if endsWithSlash r then
          let st2 := { st1 with known_dirs := st1.known_dirs ++ [r] }
          drainLoop stop net pays fuel (test_directory stop net pays st2 r).1
        else
          drainLoop stop net pays fuel { st1 with known_pages := st1.known_pages ++ [r] }

/-- Source `ModuleBuster.attack` (`mod_buster.py` lines 124-153): mark finished;
bail out unless GET probing is enabled; seed `known_dirs`/`known_pages`
from the crawled paths; explore each known directory (the loop body never
appends to `known_dirs`, so iterating the seeded list is exact); then
drain the discovered-resources worklist. -/
def busterAttack (do_get stop : Bool) (net : Net) (pays : List (String × Flags))
    (crawled : List String) (fuel : Nat) (st : BusterState) : BusterState :=
  let st := { st with finished := true }
  if !do_get then st
  else
    let st1 := crawled.foldl seedResource st
    let st2 :=
      if stop then st1
      else st1.known_dirs.foldl (fun s d => (test_directory stop net pays s d).1) st1
    drainLoop stop net pays fuel st2

/-! ## Shared lemmas -/

theorem list_set_get?_self {α : Type} (l : List α) (i : Nat) (a : α)
    (h : l.get? i = some a) : l.set i a = l := by
  induction l generalizing i with
  | nil => simp at h
  | cons x xs ih =>
    cases i with
    | zero => simp_all
    | succ n =>
      simp only [List.get?_cons_succ] at h
      simp [List.set, ih n h]

theorem setStrList_self (st : MutState) (slot : Slot) :
    st.setStrList slot (st.strList slot) = st := by
  cases slot <;> rfl

theorem setStrList_fp (st : MutState) (slot : Slot) (l : List StrParam) :
    (st.setStrList slot l).fp = st.fp := by
  cases slot <;> rfl

/-! ## C7 — Flags equality -/

/-- C7: for every pair of `Flags` values, `Flags.__eq__` returns true iff
all five fields (payload_type, section, method, platform, dbms) are
pairwise equal, and returns false iff some field differs; comparing a
`Flags` value to a value of any other type raises the descriptive
`ValueError` and never evaluates to a boolean at all. -/
theorem flags_eq_spec :
    (∀ f g : Flags, Flags.eq f (PyObject.flags g) = EqResult.ok true ↔
      (f.payload_type = g.payload_type ∧ f.section_ = g.section_ ∧
       f.method = g.method ∧ f.platform = g.platform ∧ f.dbms = g.dbms)) ∧
    (∀ f g : Flags, Flags.eq f (PyObject.flags g) = EqResult.ok false ↔
      ¬(f.payload_type = g.payload_type ∧ f.section_ = g.section_ ∧
        f.method = g.method ∧ f.platform = g.platform ∧ f.dbms = g.dbms)) ∧
    (∀ (f : Flags) (s : String),
      Flags.eq f (PyObject.other s) = EqResult.error flagsCompareErrorMsg) := by
  refine ⟨fun f g => ?_, fun f g => ?_, fun f s => rfl⟩
  · simp [Flags.eq]
  · simp [Flags.eq]

/-! ## C4 — process_line -/

/-- C4: `process_line` strips surrounding space/newline, substitutes
`[TAB]`, `[LF]`, `[FF]`, `[TIME]` (stringified `ceil(timeout) + 1`) and
`[EXTERNAL_ENDPOINT]` in that order, then strips a remaining `[TIMEOUT]`
token while setting the payload type to `time`, and finally turns the
two-character literal backslash-zero into a NUL byte. On input
`admin'[TIMEOUT] OR 1=1` with timeout 5 it returns `admin' OR 1=1` with
payload type `time`. -/
theorem process_line_spec :
    (PayloadReader.process_line ⟨5, "http://wapiti3.ovh"⟩
        ("admin" ++ sq ++ "[TIMEOUT] OR 1=1") =
      ("admin" ++ sq ++ " OR 1=1", { payload_type := PayloadType.time })) ∧
    (PayloadReader.process_line ⟨5, "EP"⟩
        " [TAB].[LF].[FF].[TIME].[EXTERNAL_ENDPOINT].\\0 " =
      ("\t.\n.\x0c.6.EP." ++ nulStr, { payload_type := PayloadType.pattern })) ∧
    (∀ (r : PayloadReader) (line : String),
      (r.process_line line).2 =
        { payload_type :=
            if pyContains (r.substituted line) "[TIMEOUT]" then PayloadType.time
            else PayloadType.pattern }) := by
  refine ⟨by decide, by decide, fun r line => ?_⟩
  simp only [PayloadReader.process_line]
  split <;> rfl

/-! ## C8 — read_payloads -/

/-- C8: when the payload file cannot be opened, `read_payloads` reports
the error and returns the empty payload list instead of raising, and every
entry of a successfully read payload list is non-empty (lines that become
empty after processing are dropped). -/
theorem read_payloads_spec :
    (∀ r : PayloadReader, r.read_payloads none = []) ∧
    (∀ (r : PayloadReader) (ls : List String) (p : String × Flags),
      p ∈ r.read_payloads (some ls) → p.1 ≠ "") := by
  refine ⟨fun r => rfl, fun r ls p hp => ?_⟩
  simp only [PayloadReader.read_payloads, List.mem_filterMap] at hp
  obtain ⟨line, _, hline⟩ := hp
  split at hline
  · exact absurd hline (by simp)
  · rename_i hne
    obtain rfl : (r.process_line line) = p := by
      simpa using hline
    exact hne

/-- Witness for C8: a concrete one-line payload file read through
`read_payloads` yields a member with a non-empty payload. -/
theorem read_payloads_spec_witness :
    (("x", ({} : Flags)) : String × Flags).1 ≠ "" :=
  read_payloads_spec.2 ⟨5, "u"⟩ ["x"] ("x", {}) (by decide)

/-! ## C6 — check_path classification -/

/-- C6: with a redirect target differing from the probed path only by an
appended trailing slash, `check_path` appends the redirect target to
`new_resources`; with any other (truthy) redirect it appends the probed
path; a non-redirect response appends the probed path exactly when its
status is outside {403, 404, 429}; `known_pages` is never appended to. -/
theorem check_path_spec :
    ∀ (net : Net) (st : BusterState) (url : String) (resp : NetResponse),
      net url = some resp → resp.url = url →
      ((resp.redirection_url = url ++ "/" →
          (check_path net st url).1.new_resources = st.new_resources ++ [url ++ "/"] ∧
          (check_path net st url).1.known_pages = st.known_pages) ∧
       (resp.redirection_url ≠ "" → resp.redirection_url ≠ url ++ "/" →
          (check_path net st url).1.new_resources = st.new_resources ++ [url] ∧
          (check_path net st url).1.known_pages = st.known_pages) ∧
       (resp.redirection_url = "" →
          (resp.status ∉ ([403, 404, 429] : List Nat) →
            (check_path net st url).1.new_resources = st.new_resources ++ [url]) ∧
          (resp.status ∈ ([403, 404, 429] : List Nat) →
            (check_path net st url).1.new_resources = st.new_resources) ∧
          (check_path net st url).1.known_pages = st.known_pages)) := by
  intro net st url resp hnet hurl
  have hslash : url ++ "/" ≠ "" := by
    intro h
    have := congrArg String.data h
    simp at this
  refine ⟨fun hdir => ?_, fun hne hnotdir => ?_, fun hno => ?_⟩
  · simp [check_path, hnet, hdir, hslash, NetResponse.is_directory_redirection, hurl]
  · simp [check_path, hnet, hne, NetResponse.is_directory_redirection, hurl, hnotdir]
  · refine ⟨fun hst => ?_, fun hst => ?_, ?_⟩
    · simp [check_path, hnet, hno, hst]
    · simp [check_path, hnet, hno, hst]
    · simp only [check_path, hnet, hno]
      split
      · simp_all
      · split <;> rfl

/-- Witness for C6: a 301 redirect of `d/x` to `d/x/` is enqueued as the
directory `d/x/`, and `known_pages` stays empty. -/
theorem check_path_spec_witness :
    (check_path (fun u => if u = "d/x" then some ⟨"d/x", 301, "d/x/"⟩ else none)
        {} "d/x").1.new_resources = [] ++ ["d/x" ++ "/"] ∧
    (check_path (fun u => if u = "d/x" then some ⟨"d/x", 301, "d/x/"⟩ else none)
        {} "d/x").1.known_pages = [] :=
  (check_path_spec (fun u => if u = "d/x" then some ⟨"d/x", 301, "d/x/"⟩ else none)
      {} "d/x" ⟨"d/x", 301, "d/x/"⟩ (by decide) (by decide)).1 (by decide)

/-! ## C5 — test_directory control probe -/

/-- C5: `test_directory` sends the control probe for the deliberately
nonexistent child first (the trace begins with it in every case), and when
the control response's status is neither 403 nor 404 it returns with the
state unchanged, having sent zero candidate probes. -/
theorem test_directory_spec :
    ∀ (stop : Bool) (net : Net) (pays : List (String × Flags))
      (st : BusterState) (path : String),
      ((test_directory stop net pays st path).2.head? =
        some (path ++ "does_n0t_exist.htm")) ∧
      (∀ resp : NetResponse, net (path ++ "does_n0t_exist.htm") = some resp →
        resp.status ∉ ([403, 404] : List Nat) →
        test_directory stop net pays st path =
          (st, [path ++ "does_n0t_exist.htm"])) := by
  intro stop net pays st path
  constructor
  · have aux : ∀ (ps : List (String × Flags)) (acc : BusterState × List String),
        acc.2.head? = some (path ++ "does_n0t_exist.htm") →
        ((ps.foldl (fun (acc : BusterState × List String) pf =>
          let url := path ++ pf.1
          if url ∉ acc.1.known_dirs ∧ url ∉ acc.1.known_pages
              ∧ url ∉ acc.1.new_resources then
            ((check_path net acc.1 url).1, acc.2 ++ [url])
          else acc) acc).2).head? = some (path ++ "does_n0t_exist.htm") := by
      intro ps
      induction ps with
      | nil => intro acc h; simpa using h
      | cons a rest ih =>
        intro acc h
        simp only [List.foldl_cons]
        apply ih
        dsimp only
        split
        · cases hacc : acc.2 with
          | nil => rw [hacc] at h; exact absurd h (by simp)
          | cons x xs =>
            rw [hacc] at h
            simpa using h
        · exact h
    cases hnet : net (path ++ "does_n0t_exist.htm") with
    | none => simp [test_directory, hnet]
    | some resp =>
      simp only [test_directory, hnet]
      by_cases hs : resp.status ∈ ([403, 404] : List Nat)
      · rw [if_pos hs]
        by_cases hstop : stop = true
        · rw [if_pos hstop]
          rfl
        · rw [if_neg hstop]
          exact aux pays (st, [path ++ "does_n0t_exist.htm"]) rfl
      · rw [if_neg hs]
        rfl
  · intro resp hnet hst
    simp [test_directory, hnet, hst]

/-- Witness for C5: a 200 control response under `/admin/` leaves the
state untouched and the trace is the control probe alone. -/
theorem test_directory_spec_witness :
    test_directory false
        (fun u => if u = "/admin/does_n0t_exist.htm" then some ⟨u, 200, ""⟩ else none)
        [("x", {})] {} "/admin/" =
      ({}, ["/admin/does_n0t_exist.htm"]) :=
  (test_directory_spec false
      (fun u => if u = "/admin/does_n0t_exist.htm" then some ⟨u, 200, ""⟩ else none)
      [("x", {})] {} "/admin/").2 ⟨"/admin/does_n0t_exist.htm", 200, ""⟩
    (by decide) (by decide)

/-! ## C10 — known_dirs trailing-slash invariant -/

theorem check_path_dirs_pages (net : Net) (st : BusterState) (url : String) :
    (check_path net st url).1.known_dirs = st.known_dirs ∧
    (check_path net st url).1.known_pages = st.known_pages := by
  unfold check_path
  cases net url with
  | none => exact ⟨rfl, rfl⟩
  | some resp =>
    dsimp only
    split
    · split <;> exact ⟨rfl, rfl⟩
    · split <;> exact ⟨rfl, rfl⟩

theorem test_directory_dirs_pages (stop : Bool) (net : Net)
    (pays : List (String × Flags)) (st : BusterState) (path : String) :
    (test_directory stop net pays st path).1.known_dirs = st.known_dirs ∧
    (test_directory stop net pays st path).1.known_pages = st.known_pages := by
  have aux : ∀ (ps : List (String × Flags)) (acc : BusterState × List String),
      ((ps.foldl (fun (acc : BusterState × List String) pf =>
        let url := path ++ pf.1
        if url ∉ acc.1.known_dirs ∧ url ∉ acc.1.known_pages
            ∧ url ∉ acc.1.new_resources then
          ((check_path net acc.1 url).1, acc.2 ++ [url])
        else acc) acc).1.known_dirs = acc.1.known_dirs) ∧
      ((ps.foldl (fun (acc : BusterState × List String) pf =>
        let url := path ++ pf.1
        if url ∉ acc.1.known_dirs ∧ url ∉ acc.1.known_pages
            ∧ url ∉ acc.1.new_resources then
          ((check_path net acc.1 url).1, acc.2 ++ [url])
        else acc) acc).1.known_pages = acc.1.known_pages) := by
    intro ps
    induction ps with
    | nil => intro acc; exact ⟨rfl, rfl⟩
    | cons a rest ih =>
      intro acc
      simp only [List.foldl_cons]
      refine ⟨?_, ?_⟩ <;>
        · dsimp only
          split
          · obtain ⟨hd, hp⟩ := ih ((check_path net acc.1 (path ++ a.1)).1, acc.2 ++ [path ++ a.1])
            obtain ⟨hd2, hp2⟩ := check_path_dirs_pages net acc.1 (path ++ a.1)
            simp_all
          · obtain ⟨hd, hp⟩ := ih acc
            simp_all
  cases hnet : net (path ++ "does_n0t_exist.htm") with
  | none => simp [test_directory, hnet]
  | some resp =>
    simp only [test_directory, hnet]
    by_cases hs : resp.status ∈ ([403, 404] : List Nat)
    · rw [if_pos hs]
      by_cases hstop : stop = true
      · rw [if_pos hstop]
        exact ⟨rfl, rfl⟩
      · rw [if_neg hstop]
        exact aux pays (st, [path ++ "does_n0t_exist.htm"])
    · rw [if_neg hs]
      exact ⟨rfl, rfl⟩

theorem seedResource_invariant (st : BusterState) (path : String)
    (h : ∀ d ∈ st.known_dirs, endsWithSlash d = true) :
    ∀ d ∈ (seedResource st path).known_dirs, endsWithSlash d = true := by
  unfold seedResource
  split
  · split
    · exact h
    · intro d hd
      rcases List.mem_append.mp hd with hmem | hmem
      · exact h d hmem
      · simp only [List.mem_singleton] at hmem
        subst hmem
        assumption
  · split <;> exact h

theorem seed_foldl_invariant (crawled : List String) (st : BusterState)
    (h : ∀ d ∈ st.known_dirs, endsWithSlash d = true) :
    ∀ d ∈ (crawled.foldl seedResource st).known_dirs, endsWithSlash d = true := by
  induction crawled generalizing st with
  | nil => exact h
  | cons a rest ih =>
    simp only [List.foldl_cons]
    exact ih (seedResource st a) (seedResource_invariant st a h)

theorem explore_foldl_invariant (stop : Bool) (net : Net)
    (pays : List (String × Flags)) (dirs : List String) (st : BusterState)
    (h : ∀ d ∈ st.known_dirs, endsWithSlash d = true) :
    ∀ d ∈ (dirs.foldl (fun s d => (test_directory stop net pays s d).1) st).known_dirs,
      endsWithSlash d = true := by
  induction dirs generalizing st with
  | nil => exact h
  | cons a rest ih =>
    simp only [List.foldl_cons]
    refine ih _ ?_
    rw [(test_directory_dirs_pages stop net pays st a).1]
    exact h

theorem drainLoop_invariant (stop : Bool) (net : Net)
    (pays : List (String × Flags)) (fuel : Nat) (st : BusterState)
    (h : ∀ d ∈ st.known_dirs, endsWithSlash d = true) :
    ∀ d ∈ (drainLoop stop net pays fuel st).known_dirs, endsWithSlash d = true := by
  induction fuel generalizing st with
  | zero => exact h
  | succ n ih =>
    unfold drainLoop
    cases hres : st.new_resources with
    | nil => exact h
    | cons r rest =>
      dsimp only
      by_cases hstop : stop = true
      · rw [if_pos hstop]
        exact h
      · rw [if_neg hstop]
        split
        · refine ih _ ?_
          rw [(test_directory_dirs_pages stop net pays _ r).1]
          intro d hd
          rcases List.mem_append.mp hd with hmem | hmem
          · exact h d hmem
          · simp only [List.mem_singleton] at hmem
            subst hmem
            assumption
        · exact ih _ h

/-- C10: throughout a run of `ModuleBuster.attack`, every element of
`known_dirs` ends with a trailing slash: seeding adds a crawled path to
`known_dirs` only if it ends with `/`, the worklist drain moves a popped
resource into `known_dirs` only if it ends with `/` (otherwise into
`known_pages`), and neither `test_directory` nor `check_path` ever
touches `known_dirs`. -/
theorem buster_attack_dirs_invariant :
    (∀ (net : Net) (st : BusterState) (url : String),
      (check_path net st url).1.known_dirs = st.known_dirs) ∧
    (∀ (stop : Bool) (net : Net) (pays : List (String × Flags))
        (st : BusterState) (path : String),
      (test_directory stop net pays st path).1.known_dirs = st.known_dirs) ∧
    (∀ (do_get stop : Bool) (net : Net) (pays : List (String × Flags))
        (crawled : List String) (fuel : Nat) (st : BusterState),
      (∀ d ∈ st.known_dirs, endsWithSlash d = true) →
      ∀ d ∈ (busterAttack do_get stop net pays crawled fuel st).known_dirs,
        endsWithSlash d = true) := by
  refine ⟨fun net st url => (check_path_dirs_pages net st url).1,
    fun stop net pays st path => (test_directory_dirs_pages stop net pays st path).1,
    fun do_get stop net pays crawled fuel st h => ?_⟩
  unfold busterAttack
  by_cases hdg : do_get = true
  · simp only [hdg, Bool.not_true, Bool.false_eq_true, if_false]
    apply drainLoop_invariant
    by_cases hstop : stop = true
    · rw [if_pos hstop]
      exact seed_foldl_invariant crawled _ h
    · rw [if_neg hstop]
      exact explore_foldl_invariant stop net pays _ _
        (seed_foldl_invariant crawled _ h)
  · have : do_get = false := by
      cases do_get
      · rfl
      · exact absurd rfl hdg
    subst this
    simpa using h

/-- Witness for C10: a concrete state whose only known directory is `/a/`
keeps the invariant through a full (degenerate) attack run. -/
theorem buster_attack_dirs_invariant_witness : endsWithSlash "/a/" = true :=
  buster_attack_dirs_invariant.2.2 false false (fun _ => none) [] ["x"] 0
    { known_dirs := ["/a/"] } (by decide) "/a/"
    (by decide)

/-! ## C9 — max_queries_per_pattern is unenforced -/

/-- C9: two `Mutator` instances that agree on every constructor argument
except the maximum-queries-per-pattern budget generate identical results
from `mutate()` on every request: the budget is accepted but never
consulted by generation. -/
theorem max_queries_per_pattern_unenforced :
    ∀ (m1 m2 : Mutator) (req : Request),
      m1.mutate_get = m2.mutate_get → m1.mutate_file = m2.mutate_file →
      m1.mutate_post = m2.mutate_post → m1.payloads = m2.payloads →
      m1.qs_inject = m2.qs_inject → m1.parameters = m2.parameters →
      m1.skip_list = m2.skip_list → m1.attack_hashes = m2.attack_hashes →
      m1.mutate req = m2.mutate req := by
  intro m1 m2 req h1 h2 h3 h4 h5 h6 h7 h8
  unfold Mutator.mutate
  rw [h1, h2, h3, h4, h5, h6, h7, h8]

/-- Witness for C9: budgets 1000 and 5, all other arguments equal, same
mutate results. -/
theorem max_queries_per_pattern_unenforced_witness :
    (Mutator.init "G" [("A", {})] true 1000 [] []).mutate { path := "p" } =
    (Mutator.init "G" [("A", {})] true 5 [] []).mutate { path := "p" } :=
  max_queries_per_pattern_unenforced
    (Mutator.init "G" [("A", {})] true 1000 [] [])
    (Mutator.init "G" [("A", {})] true 5 [] [])
    { path := "p" } rfl rfl rfl rfl rfl rfl rfl rfl

/-! ## C1 — mutate-then-restore -/

theorem strList_eq_of (st1 st : MutState) (slot : Slot)
    (hg : st1.gp = st.gp) (hp : st1.pp = st.pp) :
    st1.strList slot = st.strList slot := by
  cases slot
  · exact hg
  · exact hp

theorem processStrParam_lists (pays : List (String × Flags))
    (parameters skip_list : List String) (req : Request) (slot : Slot)
    (st : MutState) (i : Nat)
    (h : ∀ p ∈ st.strList slot, p.2 ≠ none) :
    (processStrParam pays parameters skip_list req slot st i).1.gp = st.gp ∧
    (processStrParam pays parameters skip_list req slot st i).1.pp = st.pp ∧
    (processStrParam pays parameters skip_list req slot st i).1.fp = st.fp := by
  cases hget : (st.strList slot).get? i with
  | none =>
    simp only [processStrParam, hget]
    exact ⟨trivial, trivial, trivial⟩
  | some pv =>
    obtain ⟨pname, pval⟩ := pv
    have hval : pval ≠ none := h _ (List.get?_mem hget)
    obtain ⟨v, rfl⟩ := Option.ne_none_iff_exists'.mp hval
    have hset : (st.strList slot).set i (pname, some v) = st.strList slot :=
      list_set_get?_self _ i _ hget
    simp only [processStrParam, hget, Option.getD_some]
    split
    · exact ⟨rfl, rfl, rfl⟩
    split
    · exact ⟨rfl, rfl, rfl⟩
    split
    · rw [hset, setStrList_self]
      exact ⟨rfl, rfl, rfl⟩
    · rw [hset, setStrList_self]
      exact ⟨rfl, rfl, rfl⟩

theorem processFileParam_lists (pays : List (String × Flags))
    (parameters skip_list : List String) (req : Request)
    (st : MutState) (i : Nat) :
    (processFileParam pays parameters skip_list req st i).1.gp = st.gp ∧
    (processFileParam pays parameters skip_list req st i).1.pp = st.pp ∧
    (processFileParam pays parameters skip_list req st i).1.fp = st.fp := by
  cases hget : st.fp.get? i with
  | none =>
    simp only [processFileParam, hget]
    exact ⟨trivial, trivial, trivial⟩
  | some pv =>
    obtain ⟨pname, fval⟩ := pv
    have hset : st.fp.set i (pname, fval) = st.fp :=
      list_set_get?_self _ i _ hget
    simp only [processFileParam, hget]
    split
    · exact ⟨rfl, rfl, rfl⟩
    split
    · exact ⟨rfl, rfl, rfl⟩
    split
    · rw [hset]
      exact ⟨rfl, rfl, rfl⟩
    · rw [hset]
      exact ⟨rfl, rfl, rfl⟩

theorem strPassGo_lists (pays : List (String × Flags))
    (parameters skip_list : List String) (req : Request) (slot : Slot)
    (idxs : List Nat) (st : MutState)
    (h : ∀ p ∈ st.strList slot, p.2 ≠ none) :
    (strPassGo pays parameters skip_list req slot idxs st).1.gp = st.gp ∧
    (strPassGo pays parameters skip_list req slot idxs st).1.pp = st.pp ∧
    (strPassGo pays parameters skip_list req slot idxs st).1.fp = st.fp := by
  induction idxs generalizing st with
  | nil => exact ⟨rfl, rfl, rfl⟩
  | cons i rest ih =>
    simp only [strPassGo]
    obtain ⟨hg, hp, hf⟩ := processStrParam_lists pays parameters skip_list req slot st i h
    have h2 : ∀ p ∈ (processStrParam pays parameters skip_list req slot st i).1.strList slot,
        p.2 ≠ none := by
      intro p hpmem
      apply h
      rwa [strList_eq_of _ _ slot hg hp] at hpmem
    obtain ⟨hg2, hp2, hf2⟩ := ih _ h2
    exact ⟨hg2.trans hg, hp2.trans hp, hf2.trans hf⟩

theorem filePassGo_lists (pays : List (String × Flags))
    (parameters skip_list : List String) (req : Request)
    (idxs : List Nat) (st : MutState) :
    (filePassGo pays parameters skip_list req idxs st).1.gp = st.gp ∧
    (filePassGo pays parameters skip_list req idxs st).1.pp = st.pp ∧
    (filePassGo pays parameters skip_list req idxs st).1.fp = st.fp := by
  induction idxs generalizing st with
  | nil => exact ⟨rfl, rfl, rfl⟩
  | cons i rest ih =>
    simp only [filePassGo]
    obtain ⟨hg, hp, hf⟩ := processFileParam_lists pays parameters skip_list req st i
    obtain ⟨hg2, hp2, hf2⟩ := ih ((processFileParam pays parameters skip_list req st i).1)
    exact ⟨hg2.trans hg, hp2.trans hp, hf2.trans hf⟩

theorem stageStr_lists (enabled : Bool) (pays : List (String × Flags))
    (parameters skip_list : List String) (req : Request) (slot : Slot)
    (st : MutState) (h : ∀ p ∈ st.strList slot, p.2 ≠ none) :
    (stageStr enabled pays parameters skip_list req slot st).1.gp = st.gp ∧
    (stageStr enabled pays parameters skip_list req slot st).1.pp = st.pp ∧
    (stageStr enabled pays parameters skip_list req slot st).1.fp = st.fp := by
  unfold stageStr
  split
  · exact strPassGo_lists pays parameters skip_list req slot _ st h
  · exact ⟨rfl, rfl, rfl⟩

theorem stageFile_lists (enabled : Bool) (pays : List (String × Flags))
    (parameters skip_list : List String) (req : Request) (st : MutState) :
    (stageFile enabled pays parameters skip_list req st).1.gp = st.gp ∧
    (stageFile enabled pays parameters skip_list req st).1.pp = st.pp ∧
    (stageFile enabled pays parameters skip_list req st).1.fp = st.fp := by
  unfold stageFile
  split
  · exact filePassGo_lists pays parameters skip_list req _ st
  · exact ⟨rfl, rfl, rfl⟩

theorem qsBranch_lists (pays : List (String × Flags)) (qsi : Bool)
    (req : Request) (st : MutState) :
    (qsBranch pays qsi req st).1.gp = st.gp ∧
    (qsBranch pays qsi req st).1.pp = st.pp ∧
    (qsBranch pays qsi req st).1.fp = st.fp := by
  unfold qsBranch
  split
  · dsimp only
    split
    · exact ⟨rfl, rfl, rfl⟩
    · exact ⟨rfl, rfl, rfl⟩
  · exact ⟨rfl, rfl, rfl⟩

/-- C1 counterexample: the claim fails on the code at a concrete input.
A `None`-valued query parameter is restored by `Mutator.mutate` as the
empty string, so the collection is not bit-identical; and
`FileMutator.mutate` performs no restoration at all, leaving the last
installed payload tuple in the file parameter. -/
theorem mutate_restore_counterexample :
    (((Mutator.init "G" [("X", {})] false 1000 [] []).mutate
        { path := "p", method := "POST", get_params := [("a", none)] }).2.1.get_params ≠
      [(("a" : String), (none : Option String))]) ∧
    (((FileMutator.init [("X", {})] [] []).mutate
        { path := "p", file_params := [("up", ["a.txt", "DATA", "text/plain"])] }).2.file_params ≠
      [(("up" : String), ["a.txt", "DATA", "text/plain"])]) := by
  decide

/-- C1 (amended): after a fully consumed `Mutator.mutate` pass, the input
request's parameter collections are bit-identical to their pre-call values
provided no query/body parameter value is the Python `None` (a visited
`None` value is restored as `""` instead); `FileMutator.mutate` does not
restore (its last installed payload remains), so the invariant holds for
`Mutator` only. -/
theorem mutate_restore_spec :
    ∀ (mu : Mutator) (req : Request),
      (∀ p ∈ req.get_params, p.2 ≠ none) →
      (∀ p ∈ req.post_params, p.2 ≠ none) →
      (mu.mutate req).2.1 = req := by
  intro mu req hg hp
  unfold Mutator.mutate mutateCore
  dsimp only
  obtain ⟨e1g, e1p, e1f⟩ := stageStr_lists mu.mutate_get mu.payloads mu.parameters
    mu.skip_list req Slot.get ⟨req.get_params, req.post_params, req.file_params, mu.attack_hashes⟩ hg
  have hp1 : ∀ p ∈ (stageStr mu.mutate_get mu.payloads mu.parameters mu.skip_list req Slot.get
      ⟨req.get_params, req.post_params, req.file_params, mu.attack_hashes⟩).1.strList Slot.post,
      p.2 ≠ none := by
    intro p hpmem
    apply hp
    have : (stageStr mu.mutate_get mu.payloads mu.parameters mu.skip_list req Slot.get
        ⟨req.get_params, req.post_params, req.file_params, mu.attack_hashes⟩).1.strList Slot.post =
        (stageStr mu.mutate_get mu.payloads mu.parameters mu.skip_list req Slot.get
        ⟨req.get_params, req.post_params, req.file_params, mu.attack_hashes⟩).1.pp := rfl
    rw [this, e1p] at hpmem
    exact hpmem
  obtain ⟨e2g, e2p, e2f⟩ := stageStr_lists mu.mutate_post mu.payloads mu.parameters
    mu.skip_list req Slot.post _ hp1
  obtain ⟨e3g, e3p, e3f⟩ := stageFile_lists mu.mutate_file mu.payloads mu.parameters
    mu.skip_list req ((stageStr mu.mutate_post mu.payloads mu.parameters mu.skip_list req Slot.post
      (stageStr mu.mutate_get mu.payloads mu.parameters mu.skip_list req Slot.get
        ⟨req.get_params, req.post_params, req.file_params, mu.attack_hashes⟩).1).1)
  obtain ⟨e4g, e4p, e4f⟩ := qsBranch_lists mu.payloads mu.qs_inject req
    ((stageFile mu.mutate_file mu.payloads mu.parameters mu.skip_list req
      (stageStr mu.mutate_post mu.payloads mu.parameters mu.skip_list req Slot.post
        (stageStr mu.mutate_get mu.payloads mu.parameters mu.skip_list req Slot.get
          ⟨req.get_params, req.post_params, req.file_params, mu.attack_hashes⟩).1).1).1)
  rw [e4g, e4p, e4f, e3g, e3p, e3f, e2g, e2p, e2f, e1g, e1p, e1f]

/-- Witness for C1 (amended): a concrete request with no `None` values is
bit-identical after the pass. -/
theorem mutate_restore_spec_witness :
    ((Mutator.init "FGP" [("X[VALUE]", {})] true 1000 [] []).mutate
      { path := "p", method := "POST",
        get_params := [("a", some "1"), ("b", some "2")],
        post_params := [("c", some "3")],
        file_params := [("up", ["a.txt", "DATA", "text/plain"])] }).2.1 =
      { path := "p", method := "POST",
        get_params := [("a", some "1"), ("b", some "2")],
        post_params := [("c", some "3")],
        file_params := [("up", ["a.txt", "DATA", "text/plain"])] } :=
  mutate_restore_spec (Mutator.init "FGP" [("X[VALUE]", {})] true 1000 [] [])
    { path := "p", method := "POST",
      get_params := [("a", some "1"), ("b", some "2")],
      post_params := [("c", some "3")],
      file_params := [("up", ["a.txt", "DATA", "text/plain"])] }
    (by decide) (by decide)

/-! ## C2 — dedup set growth and suppression -/

/-- The claim's eligibility condition for a payload of the query-string
branch, written from the spec: the payload references neither `[VALUE]`
nor `[DIRVALUE]`, and does not reference `[FILE_NAME]`/`[FILE_NOEXT]`
without a file-name context. -/
def qsEligible (req : Request) (pl : String) : Bool :=
  !(pyContains pl "[VALUE]") && !(pyContains pl "[DIRVALUE]") &&
  !((pyContains pl "[FILE_NAME]" || pyContains pl "[FILE_NOEXT]") && req.file_name == "")

theorem qsRenderOne_isSome (req : Request) (pl : String) (fl : Flags) :
    (qsRenderOne req pl fl).isSome = qsEligible req pl := by
  unfold qsRenderOne qsEligible
  by_cases h1 : pyContains pl "[VALUE]" = true
  · simp [h1]
  · by_cases h2 : pyContains pl "[DIRVALUE]" = true
    · simp [h1, h2]
    · by_cases h3 : (pyContains pl "[FILE_NAME]" || pyContains pl "[FILE_NOEXT]") = true
        ∧ req.file_name = ""
      · simp only [if_neg h1, if_neg h2, if_pos h3, Option.isSome_none]
        simp only [Bool.not_eq_true] at h1 h2
        simp [h1, h2, h3.1, h3.2]
      · simp only [if_neg h1, if_neg h2, if_neg h3, Option.isSome_some]
        simp only [Bool.not_eq_true] at h1 h2
        rw [not_and_or] at h3
        rcases h3 with h3 | h3
        · simp only [Bool.not_eq_true] at h3
          simp [h1, h2, h3]
        · simp [h1, h2, h3]

theorem qs_filterMap_length (req : Request) (pays : List (String × Flags)) :
    (pays.filterMap (fun pf => qsRenderOne req pf.1 pf.2)).length =
    (pays.filter (fun pf => qsEligible req pf.1)).length := by
  induction pays with
  | nil => rfl
  | cons a rest ih =>
    simp only [List.filterMap_cons, List.filter_cons]
    cases hr : qsRenderOne req a.1 a.2 with
    | none =>
      have he : qsEligible req a.1 = false := by
        rw [← qsRenderOne_isSome req a.1 a.2, hr]
        rfl
      simp [he, ih]
    | some c =>
      have he : qsEligible req a.1 = true := by
        rw [← qsRenderOne_isSome req a.1 a.2, hr]
        rfl
      simp [he, ih]

theorem stageStr_empty (enabled : Bool) (pays : List (String × Flags))
    (parameters skip_list : List String) (req : Request) (slot : Slot)
    (st : MutState) (h : st.strList slot = []) :
    stageStr enabled pays parameters skip_list req slot st = (st, []) := by
  unfold stageStr strPass
  rw [h]
  split <;> rfl

theorem stageFile_empty (enabled : Bool) (pays : List (String × Flags))
    (parameters skip_list : List String) (req : Request)
    (st : MutState) (h : st.fp = []) :
    stageFile enabled pays parameters skip_list req st = (st, []) := by
  unfold stageFile filePass
  rw [h]
  split <;> rfl

/-- C3 counterexample: the claim, as stated, fails on the code for a
second `mutate()` call on the same instance: the branch conditions hold
(GET, zero query parameters, injection enabled) and the single payload is
eligible, yet the pass yields zero candidates, because the synthesized
pattern hash was recorded by the first call. -/
theorem qs_branch_counterexample :
    (({ path := "http://t/" } : Request).method = "GET" ∧
     ({ path := "http://t/" } : Request).get_params = [] ∧
     (Mutator.init "G" [("INJECT", {})] true 1000 [] []).qs_inject = true ∧
     ((Mutator.init "G" [("INJECT", {})] true 1000 [] []).payloads.filter
       (fun pf => qsEligible { path := "http://t/" } pf.1)).length = 1) ∧
    (((Mutator.init "G" [("INJECT", {})] true 1000 [] []).mutate
        { path := "http://t/" }).1.length = 1) ∧
    ((({ Mutator.init "G" [("INJECT", {})] true 1000 [] [] with
        attack_hashes :=
          ((Mutator.init "G" [("INJECT", {})] true 1000 [] []).mutate
            { path := "http://t/" }).2.2 } : Mutator).mutate
        { path := "http://t/" }).1.length = 0) := by
  decide

/-- C3 (amended): the query-string-only branch fires exactly when the
method is GET, the query-parameter list is empty and query-string
injection is enabled; provided additionally that the synthesized pattern's
hash is not yet in the instance's dedup set, it yields exactly one
candidate per payload that references neither `[VALUE]` nor `[DIRVALUE]`
(and satisfies the file-name-context rule), and zero candidates for any
payload that references `[VALUE]` or `[DIRVALUE]`; on a request with no
parameters at all, `mutate()` yields exactly the branch's candidates. -/
theorem qs_branch_spec :
    (∀ (pays : List (String × Flags)) (qsi : Bool) (req : Request) (st : MutState),
      (¬(st.gp.isEmpty ∧ req.method = "GET" ∧ qsi = true) →
        qsBranch pays qsi req st = (st, [])) ∧
      (st.gp.isEmpty ∧ req.method = "GET" ∧ qsi = true →
        qsPatternKey req ∉ st.hashes →
        (qsBranch pays qsi req st).2.length =
          (pays.filter (fun pf => qsEligible req pf.1)).length ∧
        (∀ pf ∈ pays,
          (pyContains pf.1 "[VALUE]" = true ∨ pyContains pf.1 "[DIRVALUE]" = true) →
          qsRenderOne req pf.1 pf.2 = none))) ∧
    (∀ (mu : Mutator) (req : Request),
      req.get_params = [] → req.post_params = [] → req.file_params = [] →
      (mu.mutate req).1 =
        (qsBranch mu.payloads mu.qs_inject req
          ⟨[], [], [], mu.attack_hashes⟩).2) := by
  constructor
  · intro pays qsi req st
    constructor
    · intro hcond
      unfold qsBranch
      rw [if_neg hcond]
    · intro hcond hkey
      constructor
      · unfold qsBranch
        rw [if_pos hcond]
        dsimp only
        rw [if_neg hkey]
        exact qs_filterMap_length req pays
      · intro pf _ href
        unfold qsRenderOne
        rcases href with hv | hd
        · rw [if_pos hv]
        · by_cases hv2 : pyContains pf.1 "[VALUE]" = true
          · rw [if_pos hv2]
          · rw [if_neg hv2, if_pos hd]
  · intro mu req hg hp hf
    unfold Mutator.mutate mutateCore
    dsimp only
    rw [stageStr_empty mu.mutate_get mu.payloads mu.parameters mu.skip_list req Slot.get
      ⟨req.get_params, req.post_params, req.file_params, mu.attack_hashes⟩ (by simpa using hg)]
    rw [stageStr_empty mu.mutate_post mu.payloads mu.parameters mu.skip_list req Slot.post
      ⟨req.get_params, req.post_params, req.file_params, mu.attack_hashes⟩ (by simpa using hp)]
    rw [stageFile_empty mu.mutate_file mu.payloads mu.parameters mu.skip_list req
      ⟨req.get_params, req.post_params, req.file_params, mu.attack_hashes⟩ (by simpa using hf)]
    rw [hg, hp, hf]
    simp

/-- Witness for C3 (amended): one eligible and one `[VALUE]`-referencing
payload on a fresh instance yield exactly one candidate, and the
`[VALUE]` payload renders to nothing. -/
theorem qs_branch_spec_witness :
    (qsBranch [("INJECT", {}), ("a[VALUE]", {})] true { path := "p" }
      ⟨[], [], [], []⟩).2.length =
      ([("INJECT", ({} : Flags)), ("a[VALUE]", {})].filter
        (fun pf => qsEligible { path := "p" } pf.1)).length ∧
    qsRenderOne ({ path := "p" } : Request) "a[VALUE]" {} = none := by
  constructor
  · exact ((qs_branch_spec.1 [("INJECT", {}), ("a[VALUE]", {})] true { path := "p" }
      ⟨[], [], [], []⟩).2 (by decide) (by decide)).1
  · exact ((qs_branch_spec.1 [("INJECT", {}), ("a[VALUE]", {})] true { path := "p" }
      ⟨[], [], [], []⟩).2 (by decide) (by decide)).2 ("a[VALUE]", {})
      (by decide) (Or.inl (by decide))

end Wapiti
